import Mathlib

/-!
# SoakDeployment topology glue: lifecycle sequencing, rate-group configuration, base-tick period

Shallow embedding of `SoakDeployment/Top/SoakDeploymentTopology.cpp` and
`SoakDeployment/Top/SoakDeploymentTopologyDefs.hpp`.

The functions of the source are straight-line sequences of calls into autocoded or
framework code (`initComponents`, `rateGroupDriver.configure`, `linuxTimer.startTimer`, ...).
Each such call is recorded as one `Action`; a function of the source is a function that
extends the trace of actions performed so far.
-/

namespace SoakDeployment

/-! ## Data model -/

/-- Type `SoakDeployment::TopologyState` of `SoakDeploymentTopologyDefs.hpp`: one field,
the ComFprime subtopology state.  `ComFprime::SubtopologyState` is declared outside the
source tree, so it is the type parameter `σ`. -/
structure TopologyState (σ : Type) where
  comFprime : σ
  deriving DecidableEq

/-- One `{divisor, offset}` entry of a `Svc::RateGroupDriver::DividerSet`. -/
structure Divider where
  divisor : Int
  offset : Int
  deriving DecidableEq

/-- The three rate-group component instances configured by `configureTopology`. -/
inductive RateGroupInstance where
  | rateGroup1
  | rateGroup2
  | rateGroup3
  deriving DecidableEq

/-- The three module-level context arrays of `SoakDeploymentTopology.cpp`
(an array argument is passed by address, so it is identified by its variable). -/
inductive ContextArray where
  | rateGroup1Context
  | rateGroup2Context
  | rateGroup3Context
  deriving DecidableEq

/-- The two component instances whose `comLog.init_log_file` is called by `setupTopology`. -/
inductive ComLoggerInstance where
  | EventLoggerTee
  | TlmLoggerTee
  deriving DecidableEq

/-- One call made by the topology glue into autocoded or framework code,
with the arguments it is made with. -/
inductive Action (σ : Type) where
  | initComponents (state : TopologyState σ)
  | setBaseIds
  | connectComponents
  | regCommands
  | configComponents (state : TopologyState σ)
  | rateGroupDriver_configure (dividers : List Divider)
  | rateGroup_configure (inst : RateGroupInstance) (contexts : ContextArray)
      (tokens : List Nat) (numContexts : Nat)
  | loadParameters
  | startTasks (state : TopologyState σ)
  | comLog_init_log_file (inst : ComLoggerInstance) (path : String) (maxFileSize : Nat)
      (storeBufferLength : Bool)
  | linuxTimer_startTimer (interval : Nat)
  | linuxTimer_quit
  | stopTasks (state : TopologyState σ)
  | freeThreads (state : TopologyState σ)
  | tearDownComponents (state : TopologyState σ)
  deriving DecidableEq

/-- The calls performed so far, oldest first. -/
abbrev Trace (σ : Type) := List (Action σ)

/-- Type `Fw::TimeInterval` as far as `startRateGroups` reads it: `getSeconds()` and
`getUSeconds()`, both `U32`. -/
structure TimeInterval where
  seconds : Nat
  useconds : Nat
  deriving DecidableEq

def TimeInterval.getSeconds (interval : TimeInterval) : Nat := interval.seconds

def TimeInterval.getUSeconds (interval : TimeInterval) : Nat := interval.useconds

/-- Reduction of a natural number to the range of `U32`. -/
def wrapU32 (n : Nat) : Nat := n % 2 ^ 32

/-! ## Module-level data of `SoakDeploymentTopology.cpp` -/

/-- Line 24: `Svc::RateGroupDriver::DividerSet rateGroupDivisorsSet{{{1, 0}, {2, 0}, {4, 0}}}`,
the entries written in the initializer, in order. -/
def rateGroupDivisorsSet : List Divider := [⟨1, 0⟩, ⟨2, 0⟩, ⟨4, 0⟩]

/-- Lines 28-30: `U32 rateGroupNContext[Svc::ActiveRateGroup::CONNECTION_COUNT_MAX] = {}`.
Each of the three arrays has `CONNECTION_COUNT_MAX` elements, value-initialised to zero;
no function of the source writes to them.  `CONNECTION_COUNT_MAX` is declared outside the
source tree and is a parameter. -/
def contextTokens (CONNECTION_COUNT_MAX : Nat) : ContextArray → List Nat
  | .rateGroup1Context => List.replicate CONNECTION_COUNT_MAX 0
  | .rateGroup2Context => List.replicate CONNECTION_COUNT_MAX 0
  | .rateGroup3Context => List.replicate CONNECTION_COUNT_MAX 0

/-- The `FW_NUM_ARRAY_ELEMENTS(a)` element count of one of the context arrays. -/
def FW_NUM_ARRAY_ELEMENTS (CONNECTION_COUNT_MAX : Nat) (a : ContextArray) : Nat :=
  (contextTokens CONNECTION_COUNT_MAX a).length

/-! ## Functions of `SoakDeploymentTopology.cpp` -/

/-- Lines 39-47, `configureTopology`. -/
def configureTopology {σ : Type} (CONNECTION_COUNT_MAX : Nat) (_state : TopologyState σ)
    (w : Trace σ) : Trace σ :=
  let w := w ++ [Action.rateGroupDriver_configure rateGroupDivisorsSet]
  let w := w ++ [Action.rateGroup_configure .rateGroup1 .rateGroup1Context
    (contextTokens CONNECTION_COUNT_MAX .rateGroup1Context)
    (FW_NUM_ARRAY_ELEMENTS CONNECTION_COUNT_MAX .rateGroup1Context)]
  let w := w ++ [Action.rateGroup_configure .rateGroup2 .rateGroup2Context
    (contextTokens CONNECTION_COUNT_MAX .rateGroup2Context)
    (FW_NUM_ARRAY_ELEMENTS CONNECTION_COUNT_MAX .rateGroup2Context)]
  let w := w ++ [Action.rateGroup_configure .rateGroup3 .rateGroup3Context
    (contextTokens CONNECTION_COUNT_MAX .rateGroup3Context)
    (FW_NUM_ARRAY_ELEMENTS CONNECTION_COUNT_MAX .rateGroup3Context)]
  w

/-- Lines 51-72, `SoakDeployment::setupTopology`. -/
def setupTopology {σ : Type} (CONNECTION_COUNT_MAX : Nat) (state : TopologyState σ)
    (w : Trace σ) : Trace σ :=
  let w := w ++ [Action.initComponents state]
  let w := w ++ [Action.setBaseIds]
  let w := w ++ [Action.connectComponents]
  let w := w ++ [Action.regCommands]
  let w := w ++ [Action.configComponents state]
  let w := configureTopology CONNECTION_COUNT_MAX state w
  let w := w ++ [Action.loadParameters]
  let w := w ++ [Action.startTasks state]
  let w := w ++ [Action.comLog_init_log_file .EventLoggerTee "ComLoggerFiles/Events"
    (1024 * 1024) true]
  let w := w ++ [Action.comLog_init_log_file .TlmLoggerTee "ComLoggerFiles/Tlm"
    (1024 * 1024) true]
  w

/-- Lines 74-80, `SoakDeployment::startRateGroups`.  The argument expression
`interval.getSeconds()*1000+interval.getUSeconds()/1000` is evaluated in `U32` arithmetic:
the product and the sum wrap modulo `2^32`, the division truncates. -/
def startRateGroups {σ : Type} (interval : TimeInterval) (w : Trace σ) : Trace σ :=
  w ++ [Action.linuxTimer_startTimer
    (wrapU32 (wrapU32 (interval.getSeconds * 1000) + interval.getUSeconds / 1000))]

/-- Lines 82-84, `SoakDeployment::stopRateGroups`. -/
def stopRateGroups {σ : Type} (w : Trace σ) : Trace σ :=
  w ++ [Action.linuxTimer_quit]

/-- Lines 86-91, `SoakDeployment::teardownTopology`. -/
def teardownTopology {σ : Type} (state : TopologyState σ) (w : Trace σ) : Trace σ :=
  let w := w ++ [Action.stopTasks state]
  let w := w ++ [Action.freeThreads state]
  let w := w ++ [Action.tearDownComponents state]
  w

/-! ## Constants of `SoakDeploymentTopologyDefs.hpp` -/

/-- The pair of enum constants `WARN`, `FATAL` of one `PingEntries` namespace. -/
structure PingEntry where
  WARN : Nat
  FATAL : Nat
  deriving DecidableEq

namespace PingEntries

/-- Line 46: `namespace SoakDeployment_rateGroup1 {enum { WARN = 3, FATAL = 5 };}`. -/
def SoakDeployment_rateGroup1 : PingEntry := ⟨3, 5⟩

/-- Line 47: `namespace SoakDeployment_rateGroup2 {enum { WARN = 3, FATAL = 5 };}`. -/
def SoakDeployment_rateGroup2 : PingEntry := ⟨3, 5⟩

/-- Line 48: `namespace SoakDeployment_rateGroup3 {enum { WARN = 3, FATAL = 5 };}`. -/
def SoakDeployment_rateGroup3 : PingEntry := ⟨3, 5⟩

end PingEntries

/-! ## Reading a trace -/

/-- The autocoded lifecycle phases that `setupTopology` calls. -/
def Action.isLifecyclePhase {σ : Type} : Action σ → Bool
  | .initComponents _ => true
  | .setBaseIds => true
  | .connectComponents => true
  | .regCommands => true
  | .configComponents _ => true
  | .loadParameters => true
  | .startTasks _ => true
  | _ => false

/-- The calls that configure a component: the autocoded `configComponents`, the
`configure` calls of the rate group driver and of the rate groups, and
`comLog.init_log_file`. -/
def Action.isConfiguration {σ : Type} : Action σ → Bool
  | .configComponents _ => true
  | .rateGroupDriver_configure _ => true
  | .rateGroup_configure _ _ _ _ => true
  | .comLog_init_log_file _ _ _ _ => true
  | _ => false

/-- The `configure` calls made by `configureTopology`. -/
def Action.isRateGroupConfiguration {σ : Type} : Action σ → Bool
  | .rateGroupDriver_configure _ => true
  | .rateGroup_configure _ _ _ _ => true
  | _ => false

def Action.isStartTasks {σ : Type} : Action σ → Bool
  | .startTasks _ => true
  | _ => false

/-- The calls of a trace made before the first `startTasks`. -/
def beforeStartTasks {σ : Type} : Trace σ → Trace σ
  | [] => []
  | a :: rest => if a.isStartTasks then [] else a :: beforeStartTasks rest

/-- The calls of a trace made after the first `startTasks` (empty when there is none). -/
def afterStartTasks {σ : Type} : Trace σ → Trace σ
  | [] => []
  | a :: rest => if a.isStartTasks then rest else afterStartTasks rest

/-- No component is configured once the tasks have been started. -/
def noConfigurationAfterStart {σ : Type} (w : Trace σ) : Bool :=
  (afterStartTasks w).all (fun a => !a.isConfiguration)

/-! ## Rate-group driver, from the specification -/

/-- Modelled from the spec: the `DivisorSpec` invariant of the data model, `divisor` a
positive integer and `offset` an integer in `[0, divisor)`.  The type
`Svc::RateGroupDriver::Divider` and its checks are framework code outside the source tree. -/
def Divider.valid (spec : Divider) : Bool :=
  decide (0 < spec.divisor) && decide (0 ≤ spec.offset) && decide (spec.offset < spec.divisor)

/-- Modelled from the spec: the configuration-error condition of
`RateGroupDriver.configure`, some spec has `offset >= divisor`.  The function is framework
code outside the source tree. -/
def configurationError (specs : List Divider) : Bool :=
  specs.any (fun spec => decide (spec.offset ≥ spec.divisor))

/-- Modelled from the spec: `Divider.evaluate(tick, spec)`, true iff
`(tick - spec.offset) mod spec.divisor == 0` and `tick >= spec.offset`.  The divider is
framework code outside the source tree. -/
def Divider.evaluate (tick : Nat) (spec : Divider) : Bool :=
  decide (((tick : Int) - spec.offset) % spec.divisor = 0) && decide ((tick : Int) ≥ spec.offset)

/-- Modelled from the spec: the groups that `RateGroupDriver.tick(t)` fires, every
configured spec evaluated by `Divider.evaluate` and the firing ones listed in configured
order.  Group `k` is the `k`-th configured spec, counted from `first`.  The driver is
framework code outside the source tree. -/
def firedGroupsFrom (first : Nat) : List Divider → Nat → List Nat
  | [], _ => []
  | spec :: specs, t =>
    if Divider.evaluate t spec then first :: firedGroupsFrom (first + 1) specs t
    else firedGroupsFrom (first + 1) specs t

/-- Modelled from the spec: the groups fired at tick `t`, numbered 1, 2, 3, ... in
configured order.  The driver is framework code outside the source tree. -/
def firedGroups (specs : List Divider) (t : Nat) : List Nat :=
  firedGroupsFrom 1 specs t


/-! ## Helper lemmas -/

theorem configureTopology_trace {σ : Type} (n : Nat) (st : TopologyState σ) (w : Trace σ) :
    configureTopology n st w = w ++
      [Action.rateGroupDriver_configure [⟨1, 0⟩, ⟨2, 0⟩, ⟨4, 0⟩],
       Action.rateGroup_configure .rateGroup1 .rateGroup1Context (List.replicate n 0) n,
       Action.rateGroup_configure .rateGroup2 .rateGroup2Context (List.replicate n 0) n,
       Action.rateGroup_configure .rateGroup3 .rateGroup3Context (List.replicate n 0) n] := by
  simp [configureTopology, rateGroupDivisorsSet, contextTokens, FW_NUM_ARRAY_ELEMENTS]

theorem setupTopology_trace {σ : Type} (n : Nat) (st : TopologyState σ) (w : Trace σ) :
    setupTopology n st w = w ++
      [Action.initComponents st, Action.setBaseIds, Action.connectComponents,
       Action.regCommands, Action.configComponents st,
       Action.rateGroupDriver_configure [⟨1, 0⟩, ⟨2, 0⟩, ⟨4, 0⟩],
       Action.rateGroup_configure .rateGroup1 .rateGroup1Context (List.replicate n 0) n,
       Action.rateGroup_configure .rateGroup2 .rateGroup2Context (List.replicate n 0) n,
       Action.rateGroup_configure .rateGroup3 .rateGroup3Context (List.replicate n 0) n,
       Action.loadParameters, Action.startTasks st,
       Action.comLog_init_log_file .EventLoggerTee "ComLoggerFiles/Events" 1048576 true,
       Action.comLog_init_log_file .TlmLoggerTee "ComLoggerFiles/Tlm" 1048576 true] := by
  simp [setupTopology, configureTopology_trace]

theorem teardownTopology_trace {σ : Type} (st : TopologyState σ) (w : Trace σ) :
    teardownTopology st w = w ++
      [Action.stopTasks st, Action.freeThreads st, Action.tearDownComponents st] := by
  simp [teardownTopology]

theorem wrapU32_period (s u : Nat) :
    wrapU32 (wrapU32 (s * 1000) + u / 1000) = (s * 1000 + u / 1000) % 2 ^ 32 := by
  unfold wrapU32
  omega

/-! ## Lifecycle sequencing -/

/-- C1: for every topology state, `setupTopology` performs `initComponents`, `setBaseIds`,
`connectComponents`, `regCommands`, `configComponents` followed directly by the calls of
`configureTopology`, then `loadParameters` and `startTasks`; the lifecycle phases of its
trace are exactly these seven, each once, in that order (the function is straight-line, so
none is skipped). -/
theorem setupTopology_lifecycle_order {σ : Type} (n : Nat) (st : TopologyState σ)
    (w : Trace σ) :
    setupTopology n st w = w ++
      ([Action.initComponents st, Action.setBaseIds, Action.connectComponents,
        Action.regCommands, Action.configComponents st]
        ++ configureTopology n st []
        ++ [Action.loadParameters, Action.startTasks st]
        ++ [Action.comLog_init_log_file .EventLoggerTee "ComLoggerFiles/Events" 1048576 true,
            Action.comLog_init_log_file .TlmLoggerTee "ComLoggerFiles/Tlm" 1048576 true])
    ∧ (setupTopology n st []).filter Action.isLifecyclePhase =
      [Action.initComponents st, Action.setBaseIds, Action.connectComponents,
       Action.regCommands, Action.configComponents st, Action.loadParameters,
       Action.startTasks st]
    ∧ ((configureTopology n st []).filter Action.isLifecyclePhase = []) := by
  refine ⟨?_, ?_, ?_⟩
  · simp [setupTopology_trace, configureTopology_trace]
  · simp [setupTopology_trace, Action.isLifecyclePhase]
  · simp [configureTopology_trace, Action.isLifecyclePhase]

/-- C2 (counterexample): on the unit topology state with one-element context arrays,
`startTasks` is not the last call of `setupTopology`: the last call of its trace is the
`init_log_file` call of `TlmLoggerTee`, so starting tasks does not come last in setup. -/
theorem setupTopology_startTasks_not_last :
    (setupTopology 1 (⟨()⟩ : TopologyState Unit) []).getLast?
      ≠ some (Action.startTasks ⟨()⟩)
    ∧ (setupTopology 1 (⟨()⟩ : TopologyState Unit) []).getLast?
      = some (Action.comLog_init_log_file .TlmLoggerTee "ComLoggerFiles/Tlm" 1048576 true) := by
  simp [setupTopology_trace]

/-- C2 (amended): for every topology state, `teardownTopology` performs exactly `stopTasks`,
then `freeThreads`, then `tearDownComponents`, each once and nothing else; it mirrors the
lifecycle phases of `setupTopology`, in which `initComponents` is the first call and
`startTasks` is the last lifecycle phase. -/
theorem teardownTopology_mirrors_setup {σ : Type} (n : Nat) (st : TopologyState σ)
    (w : Trace σ) :
    teardownTopology st w = w ++
      [Action.stopTasks st, Action.freeThreads st, Action.tearDownComponents st]
    ∧ (teardownTopology st []).head? = some (Action.stopTasks st)
    ∧ (teardownTopology st []).getLast? = some (Action.tearDownComponents st)
    ∧ (setupTopology n st []).head? = some (Action.initComponents st)
    ∧ ((setupTopology n st []).filter Action.isLifecyclePhase).head?
        = some (Action.initComponents st)
    ∧ ((setupTopology n st []).filter Action.isLifecyclePhase).getLast?
        = some (Action.startTasks st) := by
  refine ⟨teardownTopology_trace st w, ?_, ?_, ?_, ?_, ?_⟩
  · simp [teardownTopology_trace]
  · simp [teardownTopology_trace]
  · simp [setupTopology_trace]
  · simp [setupTopology_trace, Action.isLifecyclePhase]
  · simp [setupTopology_trace, Action.isLifecyclePhase]

/-- C3 (the code departs from the claim): in the trace of `setupTopology` the calls made
after `startTasks` are the two `comLog.init_log_file` calls, so two components are
configured after the tasks have been started; `configComponents` and the calls of
`configureTopology` do come before `startTasks`. -/
theorem setupTopology_init_log_file_after_startTasks {σ : Type} (n : Nat)
    (st : TopologyState σ) :
    afterStartTasks (setupTopology n st []) =
      [Action.comLog_init_log_file .EventLoggerTee "ComLoggerFiles/Events" 1048576 true,
       Action.comLog_init_log_file .TlmLoggerTee "ComLoggerFiles/Tlm" 1048576 true]
    ∧ noConfigurationAfterStart (setupTopology n st []) = false
    ∧ (beforeStartTasks (setupTopology n st [])).filter Action.isConfiguration =
        Action.configComponents st :: configureTopology n st [] := by
  refine ⟨?_, ?_, ?_⟩
  · simp [setupTopology_trace, afterStartTasks, Action.isStartTasks]
  · simp [noConfigurationAfterStart, setupTopology_trace, afterStartTasks,
      Action.isStartTasks, Action.isConfiguration]
  · rw [setupTopology_trace, configureTopology_trace]
    simp [beforeStartTasks, Action.isStartTasks, Action.isConfiguration]

/-- C4 (counterexample): on the unit topology state, two successive calls of
`teardownTopology` leave a trace different from the trace of one call: the second call
performs the three actions again. -/
theorem teardownTopology_twice_ne_once :
    teardownTopology (⟨()⟩ : TopologyState Unit) (teardownTopology ⟨()⟩ [])
      ≠ teardownTopology ⟨()⟩ [] := by
  simp [teardownTopology_trace]

/-- C4 (amended): `teardownTopology` has no already-torn-down check; a second call in
succession performs `stopTasks`, `freeThreads`, `tearDownComponents` once more, so the
trace after two calls is the trace after one call followed by the same three actions. -/
theorem teardownTopology_twice {σ : Type} (st : TopologyState σ) (w : Trace σ) :
    teardownTopology st (teardownTopology st w) = teardownTopology st w ++
      [Action.stopTasks st, Action.freeThreads st, Action.tearDownComponents st]
    ∧ teardownTopology st (teardownTopology st w) = w ++
      [Action.stopTasks st, Action.freeThreads st, Action.tearDownComponents st,
       Action.stopTasks st, Action.freeThreads st, Action.tearDownComponents st] := by
  simp [teardownTopology_trace]

/-! ## Rate-group configuration -/

/-- C5: with the divisor set of the source and the divider rule of the specification, at
every tick the fired groups are group 1, then group 2 iff the tick is even, then group 3
iff the tick is a multiple of 4, always in configured order; ticks 0 and 4 fire all three
groups, tick 1 fires only group 1, tick 2 fires exactly groups 1 and 2. -/
theorem rateGroupDivisorsSet_fired_groups (t : Nat) :
    firedGroups rateGroupDivisorsSet t =
      [1] ++ (if t % 2 = 0 then [2] else []) ++ (if t % 4 = 0 then [3] else [])
    ∧ 1 ∈ firedGroups rateGroupDivisorsSet t
    ∧ (2 ∈ firedGroups rateGroupDivisorsSet t ↔ t % 2 = 0)
    ∧ (3 ∈ firedGroups rateGroupDivisorsSet t ↔ t % 4 = 0)
    ∧ (firedGroups rateGroupDivisorsSet t).Sublist [1, 2, 3]
    ∧ firedGroups rateGroupDivisorsSet 0 = [1, 2, 3]
    ∧ firedGroups rateGroupDivisorsSet 1 = [1]
    ∧ firedGroups rateGroupDivisorsSet 2 = [1, 2]
    ∧ firedGroups rateGroupDivisorsSet 4 = [1, 2, 3] := by
  have h : firedGroups rateGroupDivisorsSet t =
      [1] ++ (if t % 2 = 0 then [2] else []) ++ (if t % 4 = 0 then [3] else []) := by
    have h1 : ((t : Int) - 0) % 1 = 0 := by omega
    have h2 : (((t : Int) - 0) % 2 = 0) ↔ t % 2 = 0 := by omega
    have h4 : (((t : Int) - 0) % 4 = 0) ↔ t % 4 = 0 := by omega
    simp only [firedGroups, rateGroupDivisorsSet, firedGroupsFrom, Divider.evaluate, h1, h2, h4]
    by_cases e2 : t % 2 = 0 <;> by_cases e4 : t % 4 = 0 <;> simp [e2, e4]
  refine ⟨h, ?_, ?_, ?_, ?_, by decide, by decide, by decide, by decide⟩
  · rw [h]; simp
  · rw [h]; by_cases e2 : t % 2 = 0 <;> by_cases e4 : t % 4 = 0 <;> simp [e2, e4]
  · rw [h]; by_cases e2 : t % 2 = 0 <;> by_cases e4 : t % 4 = 0 <;> simp [e2, e4]
  · rw [h]; by_cases e2 : t % 2 = 0 <;> by_cases e4 : t % 4 = 0 <;> simp [e2, e4]

/-- C6: every entry of the configured `rateGroupDivisorsSet` is a valid divisor spec, its
divisor positive and its offset in `[0, divisor)`, so the set does not meet the
configuration-error condition `offset >= divisor`. -/
theorem rateGroupDivisorsSet_valid :
    (∀ spec ∈ rateGroupDivisorsSet,
      0 < spec.divisor ∧ 0 ≤ spec.offset ∧ spec.offset < spec.divisor ∧ spec.valid = true)
    ∧ configurationError rateGroupDivisorsSet = false := by
  decide

/-- C7: each of the three rate-group ping entries has `WARN = 3` and `FATAL = 5`, hence
`WARN <= FATAL`. -/
theorem pingEntries_rateGroups_thresholds :
    (PingEntries.SoakDeployment_rateGroup1.WARN = 3
      ∧ PingEntries.SoakDeployment_rateGroup1.FATAL = 5
      ∧ PingEntries.SoakDeployment_rateGroup1.WARN ≤ PingEntries.SoakDeployment_rateGroup1.FATAL)
    ∧ (PingEntries.SoakDeployment_rateGroup2.WARN = 3
      ∧ PingEntries.SoakDeployment_rateGroup2.FATAL = 5
      ∧ PingEntries.SoakDeployment_rateGroup2.WARN ≤ PingEntries.SoakDeployment_rateGroup2.FATAL)
    ∧ (PingEntries.SoakDeployment_rateGroup3.WARN = 3
      ∧ PingEntries.SoakDeployment_rateGroup3.FATAL = 5
      ∧ PingEntries.SoakDeployment_rateGroup3.WARN ≤ PingEntries.SoakDeployment_rateGroup3.FATAL) := by
  decide

/-- C9: `configureTopology` calls `rateGroupDriver.configure` once with the divisor set
`[(1,0),(2,0),(4,0)]`, then configures `rateGroup1`, `rateGroup2`, `rateGroup3` once each,
each with its own context array, all of whose tokens are 0, passing the array's full
element count `CONNECTION_COUNT_MAX`; inside `setupTopology` these are the only
rate-group configuration calls and all of them come before `startTasks`. -/
theorem configureTopology_rate_groups {σ : Type} (n : Nat) (st : TopologyState σ) :
    configureTopology n st [] =
      [Action.rateGroupDriver_configure [⟨1, 0⟩, ⟨2, 0⟩, ⟨4, 0⟩],
       Action.rateGroup_configure .rateGroup1 .rateGroup1Context (List.replicate n 0) n,
       Action.rateGroup_configure .rateGroup2 .rateGroup2Context (List.replicate n 0) n,
       Action.rateGroup_configure .rateGroup3 .rateGroup3Context (List.replicate n 0) n]
    ∧ (∀ a : ContextArray, (∀ x ∈ contextTokens n a, x = 0)
        ∧ FW_NUM_ARRAY_ELEMENTS n a = n ∧ (contextTokens n a).length = n)
    ∧ (setupTopology n st []).filter Action.isRateGroupConfiguration
        = configureTopology n st []
    ∧ (beforeStartTasks (setupTopology n st [])).filter Action.isRateGroupConfiguration
        = configureTopology n st []
    ∧ (afterStartTasks (setupTopology n st [])).filter Action.isRateGroupConfiguration
        = [] := by
  refine ⟨by simp [configureTopology_trace], ?_, ?_, ?_, ?_⟩
  · intro a
    cases a <;> simp [contextTokens, FW_NUM_ARRAY_ELEMENTS]
  · rw [setupTopology_trace, configureTopology_trace]
    simp [Action.isRateGroupConfiguration]
  · rw [setupTopology_trace, configureTopology_trace]
    simp [beforeStartTasks, Action.isStartTasks, Action.isRateGroupConfiguration]
  · rw [setupTopology_trace]
    simp [afterStartTasks, Action.isStartTasks, Action.isRateGroupConfiguration]

/-! ## Base-tick period -/

/-- C8 (counterexample): for the interval of 0 s and 1 µs the period passed to the timer is
0 ms, and for the interval of 4294967295 s and 0 µs it is 4294966296 ms; in neither case
is the period times 1000 the interval in microseconds. -/
theorem startRateGroups_period_not_exact :
    (∃ p, startRateGroups ⟨0, 1⟩ ([] : Trace Unit) = [Action.linuxTimer_startTimer p]
      ∧ p * 1000 ≠ 0 * 1000000 + 1)
    ∧ (∃ p, startRateGroups ⟨4294967295, 0⟩ ([] : Trace Unit)
        = [Action.linuxTimer_startTimer p]
      ∧ p * 1000 ≠ 4294967295 * 1000000 + 0) := by
  refine ⟨⟨0, by decide, by decide⟩, ⟨4294966296, by decide, by decide⟩⟩

/-- C8 (amended): for every interval of `U32` seconds `s` and microseconds `u`,
`startRateGroups` starts the timer exactly once and does nothing else; when `u` is a whole
number of milliseconds and `s*1000 + u/1000` fits in 32 bits, the period in milliseconds
times 1000 equals `s*1000000 + u`. -/
theorem startRateGroups_starts_timer_once {σ : Type} (s u : Nat) (w : Trace σ)
    (_ : s < 2 ^ 32) (_ : u < 2 ^ 32) :
    ∃ p, startRateGroups ⟨s, u⟩ w = w ++ [Action.linuxTimer_startTimer p]
      ∧ (u % 1000 = 0 → s * 1000 + u / 1000 < 2 ^ 32 → p * 1000 = s * 1000000 + u) := by
  refine ⟨(s * 1000 + u / 1000) % 2 ^ 32, ?_, ?_⟩
  · simp [startRateGroups, TimeInterval.getSeconds, TimeInterval.getUSeconds, wrapU32_period]
  · intro h1 h2
    rw [Nat.mod_eq_of_lt h2]
    omega

theorem startRateGroups_starts_timer_once_witness :
    (1 : Nat) < 2 ^ 32 ∧ (500000 : Nat) < 2 ^ 32
    ∧ ∃ p, startRateGroups ⟨1, 500000⟩ ([] : Trace Unit)
        = [] ++ [Action.linuxTimer_startTimer p]
      ∧ (500000 % 1000 = 0 → 1 * 1000 + 500000 / 1000 < 2 ^ 32
          → p * 1000 = 1 * 1000000 + 500000) :=
  ⟨by decide, by decide,
    startRateGroups_starts_timer_once 1 500000 [] (by decide) (by decide)⟩

/-- C10: for every interval of `U32` seconds `s` and microseconds `u`, the period passed to
the timer is `(s*1000 + u/1000) mod 2^32` with truncating division; whenever
`s*1000 + u/1000 < 2^32` it equals `(s*1000000 + u) / 1000`, and for `s = 0`, `u < 1000`
it is 0. -/
theorem startRateGroups_period_truncates {σ : Type} (s u : Nat) (w : Trace σ)
    (_ : s < 2 ^ 32) (_ : u < 2 ^ 32) :
    startRateGroups ⟨s, u⟩ w
      = w ++ [Action.linuxTimer_startTimer ((s * 1000 + u / 1000) % 2 ^ 32)]
    ∧ (s * 1000 + u / 1000 < 2 ^ 32 →
        (s * 1000 + u / 1000) % 2 ^ 32 = (s * 1000000 + u) / 1000)
    ∧ (s = 0 → u < 1000 → (s * 1000 + u / 1000) % 2 ^ 32 = 0) := by
  refine ⟨?_, ?_, ?_⟩
  · simp [startRateGroups, TimeInterval.getSeconds, TimeInterval.getUSeconds, wrapU32_period]
  · intro h
    rw [Nat.mod_eq_of_lt h]
    omega
  · intro h0 h1
    subst h0
    have : u / 1000 = 0 := Nat.div_eq_of_lt h1
    simp [this]

theorem startRateGroups_period_truncates_witness :
    (1 : Nat) < 2 ^ 32 ∧ (1500 : Nat) < 2 ^ 32
    ∧ startRateGroups ⟨1, 1500⟩ ([] : Trace Unit)
      = [] ++ [Action.linuxTimer_startTimer ((1 * 1000 + 1500 / 1000) % 2 ^ 32)]
    ∧ (1 * 1000 + 1500 / 1000 < 2 ^ 32 →
        (1 * 1000 + 1500 / 1000) % 2 ^ 32 = (1 * 1000000 + 1500) / 1000)
    ∧ ((1 : Nat) = 0 → 1500 < 1000 → (1 * 1000 + 1500 / 1000) % 2 ^ 32 = 0) :=
  ⟨by decide, by decide, startRateGroups_period_truncates 1 1500 [] (by decide) (by decide)⟩

end SoakDeployment
